import Mathlib

/-!
# Verification of the `bevy_where_was_i` transform text codec

Shallow embedding of `src/serialization.rs`: the encoder
`serialize_transform`, the decoder `deserialize_transform`, the helper
`next_float` and the error type `WhereWasIParseError`.

The Rust code works on 32-bit floats (`f32`), formatted with Rust `to_string`
(shortest round-trippable decimal) and parsed with `str::parse::<f32>`.
Floating-point formatting and parsing of `f32` is not reproduced bit-for-bit
here; instead the embedding is parameterized by an abstract component type
`F` together with a formatting function `ffmt : F → String` (modelling
`f32::to_string`) and a parsing function `fparse : String → Except String F`
(modelling `str::parse::<f32>`, whose error carries the message of
`ParseFloatError`).  Facts about the real `f32` functions that a claim needs
(e.g. that the decimal rendering of a finite float parses back to the same
value and contains no newline) become explicit hypotheses on these
parameters.  Everything the repository itself does — the exact line layout,
the order in which lines are consumed, which lines are discarded, how errors
are produced and propagated — is translated directly from the source.

The decoder input `io::Lines<io::BufReader<File>>` is modelled as a
`List String` of line contents (terminators stripped), with `lines.next()`
returning `none` at end of input; per-line I/O read errors are outside the
model.  The encoder sink `BufWriter<impl Write>` is modelled as a buffer
accumulating the written chunks, together with an oracle saying whether the
n-th `write_all` call fails with an I/O error, so that error propagation
through `?` is faithfully represented.
-/

namespace WhereWasI

/-- 3-component vector, as `bevy`/`glam` `Vec3` restricted to the fields the
codec touches; the component type `F` stands for `f32`. -/
structure Vec3 (F : Type) where
  x : F
  y : F
  z : F
deriving DecidableEq, Repr

/-- 4-component vector, as `glam` `Vec4`. -/
structure Vec4 (F : Type) where
  x : F
  y : F
  z : F
  w : F
deriving DecidableEq, Repr

/-- Quaternion, as `glam` `Quat`: four raw components, no normalization. -/
structure Quat (F : Type) where
  x : F
  y : F
  z : F
  w : F
deriving DecidableEq, Repr

/-- `Quat::from_vec4`: builds a quaternion from the four vector components
in order x, y, z, w, with no renormalization. -/
def Quat.from_vec4 {F : Type} (v : Vec4 F) : Quat F :=
  { x := v.x, y := v.y, z := v.z, w := v.w }

/-- `bevy` `Transform`: translation, rotation, scale. -/
structure Transform (F : Type) where
  translation : Vec3 F
  rotation : Quat F
  scale : Vec3 F
deriving DecidableEq, Repr

/-- `WhereWasIParseError`: an error while parsing a savefile; carries only a
human-readable message. -/
structure WhereWasIParseError where
  message : String
deriving DecidableEq, Repr

/-- `WhereWasIParseError::expected_line()`: the fixed missing-line error. -/
def WhereWasIParseError.expected_line : WhereWasIParseError :=
  { message := "Expected line to be there, but it wasn\x27t there" }

/-- I/O error as the codec sees it: only its display message matters
(`From<io::Error> for WhereWasIParseError` keeps just `value.to_string()`). -/
structure IOError where
  message : String
deriving DecidableEq, Repr

/-- The writer side of `BufWriter<impl Write>`: `buffer` is everything
successfully written so far, `written` counts the `write_all` calls made,
and `failAt n` tells whether the n-th `write_all` call fails (and with
which I/O error message).  `failAt = fun _ => none` is a sink on which
every write succeeds. -/
structure BufWriter where
  buffer : String
  written : Nat
  failAt : Nat → Option String

/-- `writer.write_all(chunk)?`: appends the chunk to the buffer, or returns
the I/O error dictated by the failure oracle. -/
def write_all (w : BufWriter) (chunk : String) : Except IOError BufWriter :=
  match w.failAt w.written with
  | some e => .error { message := e }
  | none => .ok { buffer := w.buffer ++ chunk, written := w.written + 1,
                  failAt := w.failAt }

section Codec

variable {F : Type}

/-- `serialize_transform`: writes the transform to the writer in the fixed
17-line layout, chunk by chunk exactly as the Rust function does, each
`write_all` followed by `?`. -/
def serialize_transform (ffmt : F → String) (w : BufWriter)
    (transform : Transform F) : Except IOError BufWriter := do
  let w ← write_all w "v0\n\n"
  let w ← write_all w "translation:\n"
  let w ← write_all w (ffmt transform.translation.x)
  let w ← write_all w "\n"
  let w ← write_all w (ffmt transform.translation.y)
  let w ← write_all w "\n"
  let w ← write_all w (ffmt transform.translation.z)
  let w ← write_all w "\n\n"
  let w ← write_all w "rotation:\n"
  let w ← write_all w (ffmt transform.rotation.x)
  let w ← write_all w "\n"
  let w ← write_all w (ffmt transform.rotation.y)
  let w ← write_all w "\n"
  let w ← write_all w (ffmt transform.rotation.z)
  let w ← write_all w "\n"
  let w ← write_all w (ffmt transform.rotation.w)
  let w ← write_all w "\n\n"
  let w ← write_all w "scale:\n"
  let w ← write_all w (ffmt transform.scale.x)
  let w ← write_all w "\n"
  let w ← write_all w (ffmt transform.scale.y)
  let w ← write_all w "\n"
  let w ← write_all w (ffmt transform.scale.z)
  let w ← write_all w "\n"
  return w

/-- `lines.next().ok_or(WhereWasIParseError::expected_line())?`: take the
next line from the sequence, or fail with the fixed missing-line error.
Returns the line together with the remaining sequence (the advanced
iterator state). -/
def next_line (lines : List String) :
    Except WhereWasIParseError (String × List String) :=
  match lines with
  | [] => .error WhereWasIParseError.expected_line
  | l :: rest => .ok (l, rest)

/-- `next_float`: read the next line and parse it into an `f32`; a missing
line gives the fixed missing-line error, a parse failure is wrapped via
`From<ParseFloatError>` keeping the parser message verbatim. -/
def next_float (fparse : String → Except String F) (lines : List String) :
    Except WhereWasIParseError (F × List String) :=
  match lines with
  | [] => .error WhereWasIParseError.expected_line
  | l :: rest =>
    match fparse l with
    | .error e => .error { message := e }
    | .ok x => .ok (x, rest)

/-- `deserialize_transform`: version gate, then three blocks of floats,
with two discarded lines before each block, exactly in source order. -/
def deserialize_transform (fparse : String → Except String F)
    (lines : List String) : Except WhereWasIParseError (Transform F) := do
  let (version, lines) ← next_line lines
  if version ≠ "v0" then
    throw { message := "Wrong version: " ++ version }
  let (_, lines) ← next_line lines
  let (_, lines) ← next_line lines
  let (tx, lines) ← next_float fparse lines
  let (ty, lines) ← next_float fparse lines
  let (tz, lines) ← next_float fparse lines
  let translation : Vec3 F := { x := tx, y := ty, z := tz }
  let (_, lines) ← next_line lines
  let (_, lines) ← next_line lines
  let (rx, lines) ← next_float fparse lines
  let (ry, lines) ← next_float fparse lines
  let (rz, lines) ← next_float fparse lines
  let (rw, lines) ← next_float fparse lines
  let rotation : Vec4 F := { x := rx, y := ry, z := rz, w := rw }
  let (_, lines) ← next_line lines
  let (_, lines) ← next_line lines
  let (sx, lines) ← next_float fparse lines
  let (sy, lines) ← next_float fparse lines
  let (sz, _) ← next_float fparse lines
  let scale : Vec3 F := { x := sx, y := sy, z := sz }
  return { translation := translation, rotation := Quat.from_vec4 rotation,
           scale := scale }

end Codec

/-- The 17 lines of the on-disk layout produced by `serialize_transform`,
in file order: version, blank, `translation:` label, three translation
components, blank, `rotation:` label, four rotation components, blank,
`scale:` label, three scale components. -/
def encode_lines {F : Type} (ffmt : F → String) (t : Transform F) :
    List String :=
  ["v0", "", "translation:",
   ffmt t.translation.x, ffmt t.translation.y, ffmt t.translation.z,
   "", "rotation:",
   ffmt t.rotation.x, ffmt t.rotation.y, ffmt t.rotation.z,
   ffmt t.rotation.w,
   "", "scale:",
   ffmt t.scale.x, ffmt t.scale.y, ffmt t.scale.z]

/-- Joins lines into file text, terminating every line with a newline. -/
def unlines : List String → String
  | [] => ""
  | l :: ls => l ++ "\n" ++ unlines ls

/-- Worker for `split_lines`, processing the file content character by
character; `acc` holds the current (unterminated) line in reverse. -/
def split_lines_aux (acc : List Char) : List Char → List String
  | [] => if acc.isEmpty then [] else [String.mk acc.reverse]
  | c :: cs =>
    if c = '\n' then
      (if acc.head? = some '\r' then String.mk acc.tail.reverse
       else String.mk acc.reverse) :: split_lines_aux [] cs
    else
      split_lines_aux (c :: acc) cs

/-- Models `BufRead::lines` applied to the file content (the way `read_lines`
in `lib.rs` feeds the decoder): splits at every newline, strips the
terminator and a carriage return directly before it, and yields a final
unterminated line only when it is nonempty. -/
def split_lines (s : String) : List String :=
  split_lines_aux [] s.data

/-- The hypotheses claims make about one `f32` component `x` under the
abstract model: `x` is a finite float, so its decimal rendering parses back
to exactly `x` (Rust `to_string` for `f32` is shortest round-trippable
decimal) and contains neither a newline nor a carriage return. -/
def float_ok {F : Type} (ffmt : F → String) (fparse : String → Except String F)
    (x : F) : Prop :=
  fparse (ffmt x) = .ok x ∧ '\n' ∉ (ffmt x).data ∧ '\r' ∉ (ffmt x).data

/-- All ten components of a transform satisfy `float_ok`. -/
def transform_ok {F : Type} (ffmt : F → String)
    (fparse : String → Except String F) (t : Transform F) : Prop :=
  float_ok ffmt fparse t.translation.x ∧ float_ok ffmt fparse t.translation.y ∧
  float_ok ffmt fparse t.translation.z ∧ float_ok ffmt fparse t.rotation.x ∧
  float_ok ffmt fparse t.rotation.y ∧ float_ok ffmt fparse t.rotation.z ∧
  float_ok ffmt fparse t.rotation.w ∧ float_ok ffmt fparse t.scale.x ∧
  float_ok ffmt fparse t.scale.y ∧ float_ok ffmt fparse t.scale.z

/-- Decimal digit value of a character, for the concrete witness model. -/
def digit? (c : Char) : Option Nat :=
  if '0' ≤ c ∧ c ≤ '9' then some (c.toNat - '0'.toNat) else none

/-- Accumulating decimal parser over characters, for the witness model. -/
def parse_digits (acc : Nat) : List Char → Option Nat
  | [] => some acc
  | c :: cs =>
    match digit? c with
    | some d => parse_digits (acc * 10 + d) cs
    | none => none

/-- Concrete parsing function instantiating the abstract component model in
witnesses: decimal naturals, failing with the message Rust gives for an
unparsable float literal. -/
def nat_parse (s : String) : Except String Nat :=
  match s.data with
  | [] => .error "cannot parse float from empty string"
  | cs =>
    match parse_digits 0 cs with
    | some n => .ok n
    | none => .error "invalid float literal"

/-- Fuel-indexed decimal digit renderer (fuelled so that it is structurally
recursive), for the witness model. -/
def fmt_aux : Nat → Nat → List Char
  | 0, _ => []
  | fuel + 1, n =>
    if n < 10 then [Nat.digitChar n]
    else fmt_aux fuel (n / 10) ++ [Nat.digitChar (n % 10)]

/-- Concrete formatting function instantiating the abstract component model
in witnesses: decimal rendering of a natural, inverse of `nat_parse`. -/
def nat_fmt (n : Nat) : String := String.mk (fmt_aux (n + 1) n)

/-- Writes a list of chunks in order, stopping at the first failing write;
`serialize_transform` is definitionally this, applied to its 24 chunks. -/
def write_chunks (w : BufWriter) : List String → Except IOError BufWriter
  | [] => .ok w
  | c :: cs => write_all w c >>= fun w => write_chunks w cs

/-- Concatenation of a list of strings. -/
def concat_all : List String → String
  | [] => ""
  | c :: cs => c ++ concat_all cs

/-- The 24 chunks `serialize_transform` passes to `write_all`, in order. -/
def serialize_chunks {F : Type} (ffmt : F → String) (t : Transform F) :
    List String :=
  ["v0\n\n", "translation:\n",
   ffmt t.translation.x, "\n", ffmt t.translation.y, "\n",
   ffmt t.translation.z, "\n\n",
   "rotation:\n",
   ffmt t.rotation.x, "\n", ffmt t.rotation.y, "\n",
   ffmt t.rotation.z, "\n", ffmt t.rotation.w, "\n\n",
   "scale:\n",
   ffmt t.scale.x, "\n", ffmt t.scale.y, "\n", ffmt t.scale.z, "\n"]

/-- The 17-line on-disk layout as an abstract line list: blank/label
positions `b1`-`b6`, numeric positions `n 0`-`n 9`, then arbitrary further
lines `suffix`. -/
def layout_lines (b1 b2 b3 b4 b5 b6 : String) (n : Nat → String)
    (suffix : List String) : List String :=
  "v0" :: b1 :: b2 :: n 0 :: n 1 :: n 2 :: b3 :: b4 ::
    n 3 :: n 4 :: n 5 :: n 6 :: b5 :: b6 :: n 7 :: n 8 :: n 9 :: suffix

/-- Witness model extending `nat_parse` the way Rust float parsing accepts
non-finite tokens: the tokens `inf`, `-inf` and `NaN` parse successfully to
a distinguished non-finite value (`none`), finite values are `some n`. -/
def nonfinite_parse (s : String) : Except String (Option Nat) :=
  if s = "inf" ∨ s = "-inf" ∨ s = "NaN" then .ok none
  else (nat_parse s).map some

/-! ## Basic reduction lemmas for the `Except` monad -/

theorem ok_bind {ε α β : Type} (a : α) (f : α → Except ε β) :
    (Except.ok a >>= f : Except ε β) = f a := rfl

theorem error_bind {ε α β : Type} (e : ε) (f : α → Except ε β) :
    (Except.error e >>= f : Except ε β) = .error e := rfl

theorem throw_eq {ε α : Type} (e : ε) : (throw e : Except ε α) = .error e := rfl

theorem pure_eq {ε α : Type} (a : α) : (pure a : Except ε α) = .ok a := rfl

/-! ## The encoder writes exactly the 17-line layout -/

/-- `serialize_transform` is exactly the sequence of its 24 chunk writes. -/
theorem serialize_eq_chunks {F : Type} (ffmt : F → String) (w : BufWriter)
    (t : Transform F) :
    serialize_transform ffmt w t = write_chunks w (serialize_chunks ffmt t) :=
  rfl

theorem write_all_ok (w : BufWriter) (c : String)
    (h : w.failAt w.written = none) :
    write_all w c = .ok ⟨w.buffer ++ c, w.written + 1, w.failAt⟩ := by
  simp [write_all, h]

/-- On a sink with no failing writes, writing a chunk list appends its
concatenation to the buffer. -/
theorem write_chunks_ok (cs : List String) : ∀ w : BufWriter,
    (∀ n, w.failAt n = none) →
    write_chunks w cs =
      .ok ⟨w.buffer ++ concat_all cs, w.written + cs.length, w.failAt⟩ := by
  induction cs with
  | nil =>
    intro w h
    show Except.ok w = _
    simp [concat_all]
  | cons c cs ih =>
    intro w h
    show write_all w c >>= _ = _
    rw [write_all_ok w c (h _), ok_bind,
      ih ⟨w.buffer ++ c, w.written + 1, w.failAt⟩ (fun n => h n)]
    simp [concat_all, String.append_assoc, Except.ok.injEq, BufWriter.mk.injEq]
    omega

/-- On a sink where every write succeeds, `serialize_transform` performs its
24 `write_all` calls and the buffer grows by exactly the newline-terminated
17-line layout. -/
theorem serialize_ok {F : Type} (ffmt : F → String) (w : BufWriter)
    (t : Transform F) (h : ∀ n, w.failAt n = none) :
    serialize_transform ffmt w t =
      .ok { buffer := w.buffer ++ unlines (encode_lines ffmt t),
            written := w.written + 24, failAt := w.failAt } := by
  rw [serialize_eq_chunks, write_chunks_ok _ w h]
  simp only [serialize_chunks, List.length_cons, List.length_nil,
    Except.ok.injEq, BufWriter.mk.injEq]
  refine ⟨String.ext ?_, trivial, trivial⟩
  simp [concat_all, unlines, encode_lines, String.data_append]

/-! ## Line splitting inverts line joining -/

theorem split_lines_aux_chunk (l : List Char) (hn : '\n' ∉ l)
    (acc cs : List Char) :
    split_lines_aux acc (l ++ cs) = split_lines_aux (l.reverse ++ acc) cs := by
  induction l generalizing acc with
  | nil => simp
  | cons c l ih =>
    have hc : c ≠ '\n' := fun hh => hn (hh ▸ List.mem_cons_self c l)
    have hl : '\n' ∉ l := fun hh => hn (List.mem_cons_of_mem c hh)
    rw [List.cons_append]
    show split_lines_aux acc (c :: (l ++ cs)) = _
    rw [show split_lines_aux acc (c :: (l ++ cs)) =
          split_lines_aux (c :: acc) (l ++ cs) by simp [split_lines_aux, hc],
        ih hl (c :: acc)]
    simp [List.reverse_cons, List.append_assoc]

theorem split_lines_aux_newline (acc cs : List Char)
    (h : acc.head? ≠ some '\r') :
    split_lines_aux acc ('\n' :: cs) =
      String.mk acc.reverse :: split_lines_aux [] cs := by
  simp [split_lines_aux, if_neg h]

/-- Splitting the newline-terminated joining of newline-free,
carriage-return-free lines recovers exactly those lines. -/
theorem split_lines_unlines (ls : List String)
    (h : ∀ l ∈ ls, '\n' ∉ l.data ∧ '\r' ∉ l.data) :
    split_lines (unlines ls) = ls := by
  induction ls with
  | nil => rfl
  | cons l ls ih =>
    obtain ⟨hn, hr⟩ := h l (List.mem_cons_self l ls)
    have hdata : (unlines (l :: ls)).data = l.data ++ '\n' :: (unlines ls).data := by
      simp [unlines, String.data_append]
    have hhead : (l.data.reverse ++ []).head? ≠ some '\r' := by
      simp only [List.append_nil]
      cases hrev : l.data.reverse with
      | nil => simp
      | cons c cs =>
        have : c ∈ l.data := by
          rw [← List.mem_reverse, hrev]
          exact List.mem_cons_self c cs
        intro hh
        simp only [List.head?_cons, Option.some.injEq] at hh
        exact hr (hh ▸ this)
    calc split_lines (unlines (l :: ls))
        = split_lines_aux [] (l.data ++ '\n' :: (unlines ls).data) := by
          rw [split_lines, hdata]
      _ = split_lines_aux (l.data.reverse ++ []) ('\n' :: (unlines ls).data) :=
          split_lines_aux_chunk l.data hn [] _
      _ = String.mk (l.data.reverse ++ []).reverse ::
            split_lines_aux [] (unlines ls).data :=
          split_lines_aux_newline _ _ hhead
      _ = l :: split_lines (unlines ls) := by
          simp [split_lines]
      _ = l :: ls := by
          rw [ih (fun x hx => h x (List.mem_cons_of_mem l hx))]

/-! ## The decoder on fully-supplied input -/

/-- Master success lemma: on input whose first line is `v0`, whose lines at
the six discarded positions hold arbitrary content, and whose ten numeric
lines parse, the decoder succeeds with exactly the parsed components in
source order, ignoring any lines beyond the seventeenth. -/
theorem deserialize_complete {F : Type} (fparse : String → Except String F)
    (b1 b2 b3 b4 b5 b6 : String) (n1 n2 n3 n4 n5 n6 n7 n8 n9 n10 : String)
    (x1 x2 x3 x4 x5 x6 x7 x8 x9 x10 : F) (suffix : List String)
    (h1 : fparse n1 = .ok x1) (h2 : fparse n2 = .ok x2)
    (h3 : fparse n3 = .ok x3) (h4 : fparse n4 = .ok x4)
    (h5 : fparse n5 = .ok x5) (h6 : fparse n6 = .ok x6)
    (h7 : fparse n7 = .ok x7) (h8 : fparse n8 = .ok x8)
    (h9 : fparse n9 = .ok x9) (h10 : fparse n10 = .ok x10) :
    deserialize_transform fparse
      ("v0" :: b1 :: b2 :: n1 :: n2 :: n3 :: b3 :: b4 ::
       n4 :: n5 :: n6 :: n7 :: b5 :: b6 :: n8 :: n9 :: n10 :: suffix) =
      .ok { translation := { x := x1, y := x2, z := x3 },
            rotation := Quat.from_vec4 { x := x4, y := x5, z := x6, w := x7 },
            scale := { x := x8, y := x9, z := x10 } } := by
  simp [deserialize_transform, next_line, next_float, h1, h2, h3, h4, h5, h6,
    h7, h8, h9, h10, ok_bind, error_bind, throw_eq, pure_eq]

/-! ## The decoder on truncated input -/

theorem next_line_ok_length {a : String} {r ls : List String}
    (h : next_line ls = .ok (a, r)) : ls.length = r.length + 1 := by
  cases ls with
  | nil => exact Except.noConfusion h
  | cons l rest =>
    simp only [next_line, Except.ok.injEq, Prod.mk.injEq] at h
    simp [← h.2]

theorem next_float_ok_length {F : Type} {fparse : String → Except String F}
    {x : F} {r ls : List String}
    (h : next_float fparse ls = .ok (x, r)) : ls.length = r.length + 1 := by
  cases ls with
  | nil => exact Except.noConfusion h
  | cons l rest =>
    simp only [next_float] at h
    cases hf : fparse l with
    | error e => rw [hf] at h; exact Except.noConfusion h
    | ok y =>
      rw [hf] at h
      simp only [Except.ok.injEq, Prod.mk.injEq] at h
      simp [← h.2]

/-- A successful decode consumes 17 reads, so the input must hold at
least 17 lines. -/
theorem deserialize_ok_length {F : Type} (fparse : String → Except String F)
    (ls : List String) (t : Transform F)
    (hok : deserialize_transform fparse ls = .ok t) : 17 ≤ ls.length := by
  simp only [deserialize_transform] at hok
  cases e0 : next_line ls with
  | error e => rw [e0] at hok; simp only [error_bind] at hok; exact Except.noConfusion hok
  | ok p0 =>
    obtain ⟨version, ls0⟩ := p0
    rw [e0] at hok
    simp only [ok_bind] at hok
    split at hok
    case isTrue =>
      simp only [throw_eq, error_bind] at hok
      exact Except.noConfusion hok
    case isFalse =>
      simp only [pure_eq, ok_bind] at hok
      cases e1 : next_line ls0 with
      | error e => rw [e1] at hok; simp only [error_bind] at hok; exact Except.noConfusion hok
      | ok p1 =>
        obtain ⟨v1, ls1⟩ := p1
        rw [e1] at hok
        simp only [ok_bind] at hok
        cases e2 : next_line ls1 with
        | error e => rw [e2] at hok; simp only [error_bind] at hok; exact Except.noConfusion hok
        | ok p2 =>
          obtain ⟨v2, ls2⟩ := p2
          rw [e2] at hok
          simp only [ok_bind] at hok
          cases e3 : next_float fparse ls2 with
          | error e => rw [e3] at hok; simp only [error_bind] at hok; exact Except.noConfusion hok
          | ok p3 =>
            obtain ⟨v3, ls3⟩ := p3
            rw [e3] at hok
            simp only [ok_bind] at hok
            cases e4 : next_float fparse ls3 with
            | error e => rw [e4] at hok; simp only [error_bind] at hok; exact Except.noConfusion hok
            | ok p4 =>
              obtain ⟨v4, ls4⟩ := p4
              rw [e4] at hok
              simp only [ok_bind] at hok
              cases e5 : next_float fparse ls4 with
              | error e => rw [e5] at hok; simp only [error_bind] at hok; exact Except.noConfusion hok
              | ok p5 =>
                obtain ⟨v5, ls5⟩ := p5
                rw [e5] at hok
                simp only [ok_bind] at hok
                cases e6 : next_line ls5 with
                | error e => rw [e6] at hok; simp only [error_bind] at hok; exact Except.noConfusion hok
                | ok p6 =>
                  obtain ⟨v6, ls6⟩ := p6
                  rw [e6] at hok
                  simp only [ok_bind] at hok
                  cases e7 : next_line ls6 with
                  | error e => rw [e7] at hok; simp only [error_bind] at hok; exact Except.noConfusion hok
                  | ok p7 =>
                    obtain ⟨v7, ls7⟩ := p7
                    rw [e7] at hok
                    simp only [ok_bind] at hok
                    cases e8 : next_float fparse ls7 with
                    | error e => rw [e8] at hok; simp only [error_bind] at hok; exact Except.noConfusion hok
                    | ok p8 =>
                      obtain ⟨v8, ls8⟩ := p8
                      rw [e8] at hok
                      simp only [ok_bind] at hok
                      cases e9 : next_float fparse ls8 with
                      | error e => rw [e9] at hok; simp only [error_bind] at hok; exact Except.noConfusion hok
                      | ok p9 =>
                        obtain ⟨v9, ls9⟩ := p9
                        rw [e9] at hok
                        simp only [ok_bind] at hok
                        cases e10 : next_float fparse ls9 with
                        | error e => rw [e10] at hok; simp only [error_bind] at hok; exact Except.noConfusion hok
                        | ok p10 =>
                          obtain ⟨v10, ls10⟩ := p10
                          rw [e10] at hok
                          simp only [ok_bind] at hok
                          cases e11 : next_float fparse ls10 with
                          | error e => rw [e11] at hok; simp only [error_bind] at hok; exact Except.noConfusion hok
                          | ok p11 =>
                            obtain ⟨v11, ls11⟩ := p11
                            rw [e11] at hok
                            simp only [ok_bind] at hok
                            cases e12 : next_line ls11 with
                            | error e => rw [e12] at hok; simp only [error_bind] at hok; exact Except.noConfusion hok
                            | ok p12 =>
                              obtain ⟨v12, ls12⟩ := p12
                              rw [e12] at hok
                              simp only [ok_bind] at hok
                              cases e13 : next_line ls12 with
                              | error e => rw [e13] at hok; simp only [error_bind] at hok; exact Except.noConfusion hok
                              | ok p13 =>
                                obtain ⟨v13, ls13⟩ := p13
                                rw [e13] at hok
                                simp only [ok_bind] at hok
                                cases e14 : next_float fparse ls13 with
                                | error e => rw [e14] at hok; simp only [error_bind] at hok; exact Except.noConfusion hok
                                | ok p14 =>
                                  obtain ⟨v14, ls14⟩ := p14
                                  rw [e14] at hok
                                  simp only [ok_bind] at hok
                                  cases e15 : next_float fparse ls14 with
                                  | error e => rw [e15] at hok; simp only [error_bind] at hok; exact Except.noConfusion hok
                                  | ok p15 =>
                                    obtain ⟨v15, ls15⟩ := p15
                                    rw [e15] at hok
                                    simp only [ok_bind] at hok
                                    cases e16 : next_float fparse ls15 with
                                    | error e => rw [e16] at hok; simp only [error_bind] at hok; exact Except.noConfusion hok
                                    | ok p16 =>
                                      obtain ⟨v16, ls16⟩ := p16
                                      rw [e16] at hok
                                      simp only [ok_bind] at hok
                                      have L0 := next_line_ok_length e0
                                      have L1 := next_line_ok_length e1
                                      have L2 := next_line_ok_length e2
                                      have L3 := next_float_ok_length e3
                                      have L4 := next_float_ok_length e4
                                      have L5 := next_float_ok_length e5
                                      have L6 := next_line_ok_length e6
                                      have L7 := next_line_ok_length e7
                                      have L8 := next_float_ok_length e8
                                      have L9 := next_float_ok_length e9
                                      have L10 := next_float_ok_length e10
                                      have L11 := next_float_ok_length e11
                                      have L12 := next_line_ok_length e12
                                      have L13 := next_line_ok_length e13
                                      have L14 := next_float_ok_length e14
                                      have L15 := next_float_ok_length e15
                                      have L16 := next_float_ok_length e16
                                      omega

/-- Any input of fewer than 17 lines makes the decoder fail (with some
error): no `Transform` is ever produced from a short input. -/
theorem deserialize_short_not_ok {F : Type} (fparse : String → Except String F)
    (ls : List String) (h : ls.length < 17) (t : Transform F) :
    deserialize_transform fparse ls ≠ .ok t := fun hok =>
  absurd (deserialize_ok_length fparse ls t hok) (by omega)

set_option maxHeartbeats 1600000 in
/-- On input of fewer than 17 lines whose first line (when present) is
`v0` and whose lines at the numeric positions 3, 4, 5, 8, 9, 10, 11, 14,
15, 16 (0-indexed) parse as floats whenever present, the decoder runs off
the end of the input and fails with exactly the fixed missing-line error. -/
theorem deserialize_short_expected {F : Type} (fparse : String → Except String F)
    (ls : List String) (h : ls.length < 17)
    (hv : ∀ s, ls.head? = some s → s = "v0")
    (h3 : ∀ s, ls[3]? = some s → ∃ x, fparse s = .ok x)
    (h4 : ∀ s, ls[4]? = some s → ∃ x, fparse s = .ok x)
    (h5 : ∀ s, ls[5]? = some s → ∃ x, fparse s = .ok x)
    (h8 : ∀ s, ls[8]? = some s → ∃ x, fparse s = .ok x)
    (h9 : ∀ s, ls[9]? = some s → ∃ x, fparse s = .ok x)
    (h10 : ∀ s, ls[10]? = some s → ∃ x, fparse s = .ok x)
    (h11 : ∀ s, ls[11]? = some s → ∃ x, fparse s = .ok x)
    (h14 : ∀ s, ls[14]? = some s → ∃ x, fparse s = .ok x)
    (h15 : ∀ s, ls[15]? = some s → ∃ x, fparse s = .ok x)
    (h16 : ∀ s, ls[16]? = some s → ∃ x, fparse s = .ok x) :
    deserialize_transform fparse ls = .error WhereWasIParseError.expected_line := by
  rcases ls with _ | ⟨l0, _ | ⟨l1, _ | ⟨l2, _ | ⟨l3, _ | ⟨l4, _ | ⟨l5, _ | ⟨l6, _ | ⟨l7, _ | ⟨l8, _ | ⟨l9, _ | ⟨l10, _ | ⟨l11, _ | ⟨l12, _ | ⟨l13, _ | ⟨l14, _ | ⟨l15, _ | ⟨l16, rest⟩⟩⟩⟩⟩⟩⟩⟩⟩⟩⟩⟩⟩⟩⟩⟩⟩
  case cons.cons.cons.cons.cons.cons.cons.cons.cons.cons.cons.cons.cons.cons.cons.cons.cons =>
    simp only [List.length_cons] at h
    omega
  · simp [deserialize_transform, next_line, error_bind]
  · have hv0 := hv _ rfl
    subst hv0
    simp [deserialize_transform, next_line, next_float, ok_bind, error_bind, throw_eq, pure_eq]
  · have hv0 := hv _ rfl
    subst hv0
    simp [deserialize_transform, next_line, next_float, ok_bind, error_bind, throw_eq, pure_eq]
  · have hv0 := hv _ rfl
    subst hv0
    simp [deserialize_transform, next_line, next_float, ok_bind, error_bind, throw_eq, pure_eq]
  · have hv0 := hv _ rfl
    subst hv0
    obtain ⟨x3, hx3⟩ := h3 l3 (by simp)
    simp [deserialize_transform, next_line, next_float, ok_bind, error_bind, throw_eq, pure_eq, hx3]
  · have hv0 := hv _ rfl
    subst hv0
    obtain ⟨x3, hx3⟩ := h3 l3 (by simp)
    obtain ⟨x4, hx4⟩ := h4 l4 (by simp)
    simp [deserialize_transform, next_line, next_float, ok_bind, error_bind, throw_eq, pure_eq, hx3, hx4]
  · have hv0 := hv _ rfl
    subst hv0
    obtain ⟨x3, hx3⟩ := h3 l3 (by simp)
    obtain ⟨x4, hx4⟩ := h4 l4 (by simp)
    obtain ⟨x5, hx5⟩ := h5 l5 (by simp)
    simp [deserialize_transform, next_line, next_float, ok_bind, error_bind, throw_eq, pure_eq, hx3, hx4, hx5]
  · have hv0 := hv _ rfl
    subst hv0
    obtain ⟨x3, hx3⟩ := h3 l3 (by simp)
    obtain ⟨x4, hx4⟩ := h4 l4 (by simp)
    obtain ⟨x5, hx5⟩ := h5 l5 (by simp)
    simp [deserialize_transform, next_line, next_float, ok_bind, error_bind, throw_eq, pure_eq, hx3, hx4, hx5]
  · have hv0 := hv _ rfl
    subst hv0
    obtain ⟨x3, hx3⟩ := h3 l3 (by simp)
    obtain ⟨x4, hx4⟩ := h4 l4 (by simp)
    obtain ⟨x5, hx5⟩ := h5 l5 (by simp)
    simp [deserialize_transform, next_line, next_float, ok_bind, error_bind, throw_eq, pure_eq, hx3, hx4, hx5]
  · have hv0 := hv _ rfl
    subst hv0
    obtain ⟨x3, hx3⟩ := h3 l3 (by simp)
    obtain ⟨x4, hx4⟩ := h4 l4 (by simp)
    obtain ⟨x5, hx5⟩ := h5 l5 (by simp)
    obtain ⟨x8, hx8⟩ := h8 l8 (by simp)
    simp [deserialize_transform, next_line, next_float, ok_bind, error_bind, throw_eq, pure_eq, hx3, hx4, hx5, hx8]
  · have hv0 := hv _ rfl
    subst hv0
    obtain ⟨x3, hx3⟩ := h3 l3 (by simp)
    obtain ⟨x4, hx4⟩ := h4 l4 (by simp)
    obtain ⟨x5, hx5⟩ := h5 l5 (by simp)
    obtain ⟨x8, hx8⟩ := h8 l8 (by simp)
    obtain ⟨x9, hx9⟩ := h9 l9 (by simp)
    simp [deserialize_transform, next_line, next_float, ok_bind, error_bind, throw_eq, pure_eq, hx3, hx4, hx5, hx8, hx9]
  · have hv0 := hv _ rfl
    subst hv0
    obtain ⟨x3, hx3⟩ := h3 l3 (by simp)
    obtain ⟨x4, hx4⟩ := h4 l4 (by simp)
    obtain ⟨x5, hx5⟩ := h5 l5 (by simp)
    obtain ⟨x8, hx8⟩ := h8 l8 (by simp)
    obtain ⟨x9, hx9⟩ := h9 l9 (by simp)
    obtain ⟨x10, hx10⟩ := h10 l10 (by simp)
    simp [deserialize_transform, next_line, next_float, ok_bind, error_bind, throw_eq, pure_eq, hx3, hx4, hx5, hx8, hx9, hx10]
  · have hv0 := hv _ rfl
    subst hv0
    obtain ⟨x3, hx3⟩ := h3 l3 (by simp)
    obtain ⟨x4, hx4⟩ := h4 l4 (by simp)
    obtain ⟨x5, hx5⟩ := h5 l5 (by simp)
    obtain ⟨x8, hx8⟩ := h8 l8 (by simp)
    obtain ⟨x9, hx9⟩ := h9 l9 (by simp)
    obtain ⟨x10, hx10⟩ := h10 l10 (by simp)
    obtain ⟨x11, hx11⟩ := h11 l11 (by simp)
    simp [deserialize_transform, next_line, next_float, ok_bind, error_bind, throw_eq, pure_eq, hx3, hx4, hx5, hx8, hx9, hx10, hx11]
  · have hv0 := hv _ rfl
    subst hv0
    obtain ⟨x3, hx3⟩ := h3 l3 (by simp)
    obtain ⟨x4, hx4⟩ := h4 l4 (by simp)
    obtain ⟨x5, hx5⟩ := h5 l5 (by simp)
    obtain ⟨x8, hx8⟩ := h8 l8 (by simp)
    obtain ⟨x9, hx9⟩ := h9 l9 (by simp)
    obtain ⟨x10, hx10⟩ := h10 l10 (by simp)
    obtain ⟨x11, hx11⟩ := h11 l11 (by simp)
    simp [deserialize_transform, next_line, next_float, ok_bind, error_bind, throw_eq, pure_eq, hx3, hx4, hx5, hx8, hx9, hx10, hx11]
  · have hv0 := hv _ rfl
    subst hv0
    obtain ⟨x3, hx3⟩ := h3 l3 (by simp)
    obtain ⟨x4, hx4⟩ := h4 l4 (by simp)
    obtain ⟨x5, hx5⟩ := h5 l5 (by simp)
    obtain ⟨x8, hx8⟩ := h8 l8 (by simp)
    obtain ⟨x9, hx9⟩ := h9 l9 (by simp)
    obtain ⟨x10, hx10⟩ := h10 l10 (by simp)
    obtain ⟨x11, hx11⟩ := h11 l11 (by simp)
    simp [deserialize_transform, next_line, next_float, ok_bind, error_bind, throw_eq, pure_eq, hx3, hx4, hx5, hx8, hx9, hx10, hx11]
  · have hv0 := hv _ rfl
    subst hv0
    obtain ⟨x3, hx3⟩ := h3 l3 (by simp)
    obtain ⟨x4, hx4⟩ := h4 l4 (by simp)
    obtain ⟨x5, hx5⟩ := h5 l5 (by simp)
    obtain ⟨x8, hx8⟩ := h8 l8 (by simp)
    obtain ⟨x9, hx9⟩ := h9 l9 (by simp)
    obtain ⟨x10, hx10⟩ := h10 l10 (by simp)
    obtain ⟨x11, hx11⟩ := h11 l11 (by simp)
    obtain ⟨x14, hx14⟩ := h14 l14 (by simp)
    simp [deserialize_transform, next_line, next_float, ok_bind, error_bind, throw_eq, pure_eq, hx3, hx4, hx5, hx8, hx9, hx10, hx11, hx14]
  · have hv0 := hv _ rfl
    subst hv0
    obtain ⟨x3, hx3⟩ := h3 l3 (by simp)
    obtain ⟨x4, hx4⟩ := h4 l4 (by simp)
    obtain ⟨x5, hx5⟩ := h5 l5 (by simp)
    obtain ⟨x8, hx8⟩ := h8 l8 (by simp)
    obtain ⟨x9, hx9⟩ := h9 l9 (by simp)
    obtain ⟨x10, hx10⟩ := h10 l10 (by simp)
    obtain ⟨x11, hx11⟩ := h11 l11 (by simp)
    obtain ⟨x14, hx14⟩ := h14 l14 (by simp)
    obtain ⟨x15, hx15⟩ := h15 l15 (by simp)
    simp [deserialize_transform, next_line, next_float, ok_bind, error_bind, throw_eq, pure_eq, hx3, hx4, hx5, hx8, hx9, hx10, hx11, hx14, hx15]


/-! ## Claim theorems -/

/-- C1: for every Transform whose ten components are finite 32-bit floats
(modelled: each component round-trips through the decimal formatting, whose
output is free of newline and carriage-return characters), decoding the
line sequence produced by encoding the transform yields it back exactly,
component for component, the quaternion restored from the four parsed
components in order x, y, z, w without renormalization. -/
theorem decode_encode_roundtrip {F : Type} (ffmt : F → String)
    (fparse : String → Except String F) (t : Transform F) (w : BufWriter)
    (hok : transform_ok ffmt fparse t)
    (hw : serialize_transform ffmt
        { buffer := "", written := 0, failAt := fun _ => none } t = .ok w) :
    deserialize_transform fparse (split_lines w.buffer) = .ok t := by
  obtain ⟨h1, h2, h3, h4, h5, h6, h7, h8, h9, h10⟩ := hok
  rw [serialize_ok ffmt _ t (fun n => rfl)] at hw
  have hw2 := Except.ok.inj hw
  have hbuf : w.buffer = unlines (encode_lines ffmt t) := by rw [← hw2]; rfl
  have hcond : ∀ l ∈ encode_lines ffmt t, '\n' ∉ l.data ∧ '\r' ∉ l.data := by
    intro l hl
    simp only [encode_lines, List.mem_cons, List.not_mem_nil, or_false] at hl
    rcases hl with rfl | rfl | rfl | rfl | rfl | rfl | rfl | rfl | rfl | rfl |
      rfl | rfl | rfl | rfl | rfl | rfl | rfl
    · exact ⟨by decide, by decide⟩
    · exact ⟨by decide, by decide⟩
    · exact ⟨by decide, by decide⟩
    · exact h1.2
    · exact h2.2
    · exact h3.2
    · exact ⟨by decide, by decide⟩
    · exact ⟨by decide, by decide⟩
    · exact h4.2
    · exact h5.2
    · exact h6.2
    · exact h7.2
    · exact ⟨by decide, by decide⟩
    · exact ⟨by decide, by decide⟩
    · exact h8.2
    · exact h9.2
    · exact h10.2
  rw [hbuf, split_lines_unlines _ hcond]
  exact deserialize_complete fparse "" "translation:" "" "rotation:" "" "scale:"
    (ffmt t.translation.x) (ffmt t.translation.y) (ffmt t.translation.z)
    (ffmt t.rotation.x) (ffmt t.rotation.y) (ffmt t.rotation.z)
    (ffmt t.rotation.w) (ffmt t.scale.x) (ffmt t.scale.y) (ffmt t.scale.z)
    t.translation.x t.translation.y t.translation.z t.rotation.x t.rotation.y
    t.rotation.z t.rotation.w t.scale.x t.scale.y t.scale.z []
    h1.1 h2.1 h3.1 h4.1 h5.1 h6.1 h7.1 h8.1 h9.1 h10.1

/-- Witness for C1 at a concrete transform in the concrete decimal model. -/
theorem decode_encode_roundtrip_witness :
    transform_ok nat_fmt nat_parse
      { translation := ⟨1, 2, 3⟩, rotation := ⟨4, 5, 6, 7⟩,
        scale := ⟨8, 9, 10⟩ } ∧
    deserialize_transform nat_parse (split_lines (unlines (encode_lines nat_fmt
      { translation := ⟨1, 2, 3⟩, rotation := ⟨4, 5, 6, 7⟩,
        scale := ⟨8, 9, 10⟩ }))) =
      .ok { translation := ⟨1, 2, 3⟩, rotation := ⟨4, 5, 6, 7⟩,
            scale := ⟨8, 9, 10⟩ } := by
  have hok : transform_ok nat_fmt nat_parse
      { translation := ⟨1, 2, 3⟩, rotation := ⟨4, 5, 6, 7⟩,
        scale := ⟨8, 9, 10⟩ } :=
    ⟨⟨rfl, by decide, by decide⟩, ⟨rfl, by decide, by decide⟩,
     ⟨rfl, by decide, by decide⟩, ⟨rfl, by decide, by decide⟩,
     ⟨rfl, by decide, by decide⟩, ⟨rfl, by decide, by decide⟩,
     ⟨rfl, by decide, by decide⟩, ⟨rfl, by decide, by decide⟩,
     ⟨rfl, by decide, by decide⟩, ⟨rfl, by decide, by decide⟩⟩
  exact ⟨hok, decode_encode_roundtrip nat_fmt nat_parse _
    { buffer := unlines (encode_lines nat_fmt
        { translation := ⟨1, 2, 3⟩, rotation := ⟨4, 5, 6, 7⟩,
          scale := ⟨8, 9, 10⟩ }),
      written := 24, failAt := fun _ => none } hok rfl⟩

/-- C2: on a sink where every write succeeds, `serialize_transform` writes
exactly the fixed layout — `v0`, blank, `translation:`, three translation
components, blank, `rotation:`, four rotation components, blank, `scale:`,
three scale components, each line newline-terminated, each numeric field
rendered by the float formatting function — and returns success. -/
theorem serialize_writes_layout {F : Type} (ffmt : F → String) (w : BufWriter)
    (t : Transform F) (h : ∀ n, w.failAt n = none) :
    serialize_transform ffmt w t =
      .ok { buffer := w.buffer ++ unlines
              ["v0", "", "translation:",
               ffmt t.translation.x, ffmt t.translation.y, ffmt t.translation.z,
               "", "rotation:",
               ffmt t.rotation.x, ffmt t.rotation.y, ffmt t.rotation.z,
               ffmt t.rotation.w,
               "", "scale:",
               ffmt t.scale.x, ffmt t.scale.y, ffmt t.scale.z],
            written := w.written + 24, failAt := w.failAt } :=
  serialize_ok ffmt w t h

/-- Witness for C2: the identity transform on an all-succeeding empty sink. -/
theorem serialize_writes_layout_witness :
    serialize_transform nat_fmt
      { buffer := "", written := 0, failAt := fun _ => none }
      { translation := ⟨0, 0, 0⟩, rotation := ⟨0, 0, 0, 1⟩,
        scale := ⟨1, 1, 1⟩ } =
      .ok { buffer := unlines ["v0", "", "translation:", "0", "0", "0",
              "", "rotation:", "0", "0", "0", "1", "", "scale:", "1", "1", "1"],
            written := 24, failAt := fun _ => none } :=
  serialize_writes_layout nat_fmt
    { buffer := "", written := 0, failAt := fun _ => none }
    { translation := ⟨0, 0, 0⟩, rotation := ⟨0, 0, 0, 1⟩, scale := ⟨1, 1, 1⟩ }
    (fun n => rfl)

/-- C3: when the first line is present but is not exactly `v0`, the decoder
fails with message `Wrong version: ` followed by that line, for every
continuation of the input (no further line is consumed) and every parsing
function (no numeric parsing is attempted). -/
theorem wrong_version_rejected {F : Type} (fparse : String → Except String F)
    (version : String) (rest : List String) (hv : version ≠ "v0") :
    deserialize_transform fparse (version :: rest) =
      .error { message := "Wrong version: " ++ version } := by
  simp [deserialize_transform, next_line, ok_bind, error_bind, throw_eq, hv]

/-- Witness for C3 at the spec example `v1`. -/
theorem wrong_version_rejected_witness :
    deserialize_transform nat_parse ["v1"] =
      .error { message := "Wrong version: v1" } :=
  wrong_version_rejected nat_parse "v1" [] (by decide)

/-- C4: whenever the input runs out before the decoder has read all the
lines it requires — the version line being `v0` when present, and every
line sitting at a numeric position parsing whenever present, so that the
run fails only by exhaustion — the whole decode fails with exactly the
fixed missing-line error, returning no partial transform. -/
theorem truncated_input_expected_line {F : Type}
    (fparse : String → Except String F) (ls : List String)
    (h : ls.length < 17)
    (hv : ∀ s, ls.head? = some s → s = "v0")
    (h3 : ∀ s, ls[3]? = some s → ∃ x, fparse s = .ok x)
    (h4 : ∀ s, ls[4]? = some s → ∃ x, fparse s = .ok x)
    (h5 : ∀ s, ls[5]? = some s → ∃ x, fparse s = .ok x)
    (h8 : ∀ s, ls[8]? = some s → ∃ x, fparse s = .ok x)
    (h9 : ∀ s, ls[9]? = some s → ∃ x, fparse s = .ok x)
    (h10 : ∀ s, ls[10]? = some s → ∃ x, fparse s = .ok x)
    (h11 : ∀ s, ls[11]? = some s → ∃ x, fparse s = .ok x)
    (h14 : ∀ s, ls[14]? = some s → ∃ x, fparse s = .ok x)
    (h15 : ∀ s, ls[15]? = some s → ∃ x, fparse s = .ok x)
    (h16 : ∀ s, ls[16]? = some s → ∃ x, fparse s = .ok x) :
    deserialize_transform fparse ls = .error WhereWasIParseError.expected_line :=
  deserialize_short_expected fparse ls h hv h3 h4 h5 h8 h9 h10 h11 h14 h15 h16

/-- Witness for C4: a three-line input (version plus the two discarded
lines) exhausts before the first numeric field. -/
theorem truncated_input_expected_line_witness :
    deserialize_transform nat_parse ["v0", "x", "y"] =
      .error WhereWasIParseError.expected_line :=
  truncated_input_expected_line nat_parse ["v0", "x", "y"] (by decide)
    (fun s hs => (Option.some.inj hs).symm)
    (fun s hs => Option.noConfusion hs) (fun s hs => Option.noConfusion hs)
    (fun s hs => Option.noConfusion hs) (fun s hs => Option.noConfusion hs)
    (fun s hs => Option.noConfusion hs) (fun s hs => Option.noConfusion hs)
    (fun s hs => Option.noConfusion hs) (fun s hs => Option.noConfusion hs)
    (fun s hs => Option.noConfusion hs) (fun s hs => Option.noConfusion hs)

set_option maxHeartbeats 1600000 in
/-- C5: the first numeric field that fails to parse aborts the whole decode
immediately with the underlying float-parser message verbatim; all later
lines — numeric or not — are arbitrary and never examined. -/
theorem first_bad_float_aborts {F : Type} (fparse : String → Except String F)
    (b1 b2 b3 b4 b5 b6 : String) (n : Nat → String) (suffix : List String)
    (j : Nat) (hj10 : j < 10) (e : String)
    (hbefore : ∀ i, i < j → ∃ x, fparse (n i) = .ok x)
    (hj : fparse (n j) = .error e) :
    deserialize_transform fparse (layout_lines b1 b2 b3 b4 b5 b6 n suffix) =
      .error { message := e } := by
  interval_cases j
  ·
    simp [layout_lines, deserialize_transform, next_line, next_float,
      ok_bind, error_bind, throw_eq, pure_eq, hj]
  ·
    obtain ⟨x0, hx0⟩ := hbefore 0 (by omega)
    simp [layout_lines, deserialize_transform, next_line, next_float,
      ok_bind, error_bind, throw_eq, pure_eq, hx0, hj]
  ·
    obtain ⟨x0, hx0⟩ := hbefore 0 (by omega)
    obtain ⟨x1, hx1⟩ := hbefore 1 (by omega)
    simp [layout_lines, deserialize_transform, next_line, next_float,
      ok_bind, error_bind, throw_eq, pure_eq, hx0, hx1, hj]
  ·
    obtain ⟨x0, hx0⟩ := hbefore 0 (by omega)
    obtain ⟨x1, hx1⟩ := hbefore 1 (by omega)
    obtain ⟨x2, hx2⟩ := hbefore 2 (by omega)
    simp [layout_lines, deserialize_transform, next_line, next_float,
      ok_bind, error_bind, throw_eq, pure_eq, hx0, hx1, hx2, hj]
  ·
    obtain ⟨x0, hx0⟩ := hbefore 0 (by omega)
    obtain ⟨x1, hx1⟩ := hbefore 1 (by omega)
    obtain ⟨x2, hx2⟩ := hbefore 2 (by omega)
    obtain ⟨x3, hx3⟩ := hbefore 3 (by omega)
    simp [layout_lines, deserialize_transform, next_line, next_float,
      ok_bind, error_bind, throw_eq, pure_eq, hx0, hx1, hx2, hx3, hj]
  ·
    obtain ⟨x0, hx0⟩ := hbefore 0 (by omega)
    obtain ⟨x1, hx1⟩ := hbefore 1 (by omega)
    obtain ⟨x2, hx2⟩ := hbefore 2 (by omega)
    obtain ⟨x3, hx3⟩ := hbefore 3 (by omega)
    obtain ⟨x4, hx4⟩ := hbefore 4 (by omega)
    simp [layout_lines, deserialize_transform, next_line, next_float,
      ok_bind, error_bind, throw_eq, pure_eq, hx0, hx1, hx2, hx3, hx4, hj]
  ·
    obtain ⟨x0, hx0⟩ := hbefore 0 (by omega)
    obtain ⟨x1, hx1⟩ := hbefore 1 (by omega)
    obtain ⟨x2, hx2⟩ := hbefore 2 (by omega)
    obtain ⟨x3, hx3⟩ := hbefore 3 (by omega)
    obtain ⟨x4, hx4⟩ := hbefore 4 (by omega)
    obtain ⟨x5, hx5⟩ := hbefore 5 (by omega)
    simp [layout_lines, deserialize_transform, next_line, next_float,
      ok_bind, error_bind, throw_eq, pure_eq, hx0, hx1, hx2, hx3, hx4, hx5, hj]
  ·
    obtain ⟨x0, hx0⟩ := hbefore 0 (by omega)
    obtain ⟨x1, hx1⟩ := hbefore 1 (by omega)
    obtain ⟨x2, hx2⟩ := hbefore 2 (by omega)
    obtain ⟨x3, hx3⟩ := hbefore 3 (by omega)
    obtain ⟨x4, hx4⟩ := hbefore 4 (by omega)
    obtain ⟨x5, hx5⟩ := hbefore 5 (by omega)
    obtain ⟨x6, hx6⟩ := hbefore 6 (by omega)
    simp [layout_lines, deserialize_transform, next_line, next_float,
      ok_bind, error_bind, throw_eq, pure_eq, hx0, hx1, hx2, hx3, hx4, hx5, hx6, hj]
  ·
    obtain ⟨x0, hx0⟩ := hbefore 0 (by omega)
    obtain ⟨x1, hx1⟩ := hbefore 1 (by omega)
    obtain ⟨x2, hx2⟩ := hbefore 2 (by omega)
    obtain ⟨x3, hx3⟩ := hbefore 3 (by omega)
    obtain ⟨x4, hx4⟩ := hbefore 4 (by omega)
    obtain ⟨x5, hx5⟩ := hbefore 5 (by omega)
    obtain ⟨x6, hx6⟩ := hbefore 6 (by omega)
    obtain ⟨x7, hx7⟩ := hbefore 7 (by omega)
    simp [layout_lines, deserialize_transform, next_line, next_float,
      ok_bind, error_bind, throw_eq, pure_eq, hx0, hx1, hx2, hx3, hx4, hx5, hx6, hx7, hj]
  ·
    obtain ⟨x0, hx0⟩ := hbefore 0 (by omega)
    obtain ⟨x1, hx1⟩ := hbefore 1 (by omega)
    obtain ⟨x2, hx2⟩ := hbefore 2 (by omega)
    obtain ⟨x3, hx3⟩ := hbefore 3 (by omega)
    obtain ⟨x4, hx4⟩ := hbefore 4 (by omega)
    obtain ⟨x5, hx5⟩ := hbefore 5 (by omega)
    obtain ⟨x6, hx6⟩ := hbefore 6 (by omega)
    obtain ⟨x7, hx7⟩ := hbefore 7 (by omega)
    obtain ⟨x8, hx8⟩ := hbefore 8 (by omega)
    simp [layout_lines, deserialize_transform, next_line, next_float,
      ok_bind, error_bind, throw_eq, pure_eq, hx0, hx1, hx2, hx3, hx4, hx5, hx6, hx7, hx8, hj]

/-- Witness for C5: the very first numeric line fails to parse. -/
theorem first_bad_float_aborts_witness :
    deserialize_transform nat_parse
      (layout_lines "" "translation:" "" "rotation:" "" "scale:"
        (fun i => "junk") []) =
      .error { message := "invalid float literal" } :=
  first_bad_float_aborts nat_parse "" "translation:" "" "rotation:" "" "scale:"
    (fun i => "junk") [] 0 (by omega) "invalid float literal"
    (fun i hi => absurd hi (by omega)) rfl

/-- Counterexample for C6 as stated: a 15-line, 1-indexed file with
arbitrary text at positions 2, 3, 6, 7, 11, 12 and parseable numerals at
every other position after the `v0` version line does NOT decode: the
decoder reads position 6 as the third translation component and fails on
it with a numeric-parse error, so the positions given in the claim are
wrong and a 15-line file is in any case too short. -/
theorem label_positions_counterexample :
    deserialize_transform nat_parse
      ["v0", "junk", "junk", "1", "1", "junk", "junk", "1", "1", "1",
       "junk", "junk", "1", "1", "1"] =
      .error { message := "invalid float literal" } := rfl

/-- C6 (amended): decoding succeeds with arbitrary (in particular non-blank)
text in the blank and label lines — which sit at positions 2, 3, 7, 8, 13,
14 of a 1-indexed 17-line file, not 2, 3, 6, 7, 11, 12 of a 15-line file —
as long as the first line is exactly `v0` and the 10 numeric lines parse:
the discarded content never influences the result. -/
theorem label_lines_unchecked {F : Type} (fparse : String → Except String F)
    (b1 b2 b3 b4 b5 b6 : String)
    (n1 n2 n3 n4 n5 n6 n7 n8 n9 n10 : String)
    (x1 x2 x3 x4 x5 x6 x7 x8 x9 x10 : F)
    (h1 : fparse n1 = .ok x1) (h2 : fparse n2 = .ok x2)
    (h3 : fparse n3 = .ok x3) (h4 : fparse n4 = .ok x4)
    (h5 : fparse n5 = .ok x5) (h6 : fparse n6 = .ok x6)
    (h7 : fparse n7 = .ok x7) (h8 : fparse n8 = .ok x8)
    (h9 : fparse n9 = .ok x9) (h10 : fparse n10 = .ok x10) :
    deserialize_transform fparse
      ["v0", b1, b2, n1, n2, n3, b3, b4, n4, n5, n6, n7, b5, b6,
       n8, n9, n10] =
      .ok { translation := { x := x1, y := x2, z := x3 },
            rotation := Quat.from_vec4 { x := x4, y := x5, z := x6, w := x7 },
            scale := { x := x8, y := x9, z := x10 } } :=
  deserialize_complete fparse b1 b2 b3 b4 b5 b6 n1 n2 n3 n4 n5 n6 n7 n8 n9 n10
    x1 x2 x3 x4 x5 x6 x7 x8 x9 x10 [] h1 h2 h3 h4 h5 h6 h7 h8 h9 h10

/-- Witness for amended C6: arbitrary junk in all six discarded lines. -/
theorem label_lines_unchecked_witness :
    deserialize_transform nat_parse
      ["v0", "arbitrary", "text", "1", "2", "3", "more junk", "anything",
       "4", "5", "6", "7", "even more", "junk", "8", "9", "10"] =
      .ok { translation := { x := 1, y := 2, z := 3 },
            rotation := Quat.from_vec4 { x := 4, y := 5, z := 6, w := 7 },
            scale := { x := 8, y := 9, z := 10 } } :=
  label_lines_unchecked nat_parse "arbitrary" "text" "more junk" "anything"
    "even more" "junk" "1" "2" "3" "4" "5" "6" "7" "8" "9" "10"
    1 2 3 4 5 6 7 8 9 10 rfl rfl rfl rfl rfl rfl rfl rfl rfl rfl

/-- Counterexample for C7 as stated: the one-line sequence `v1` has fewer
than 15 lines and does fail, but the failure message is the version error,
not the fixed missing-line message the claim requires. -/
theorem short_input_message_counterexample :
    deserialize_transform nat_parse ["v1"] =
      .error { message := "Wrong version: v1" } ∧
    deserialize_transform nat_parse ["v1"] ≠
      .error WhereWasIParseError.expected_line := by
  constructor
  · rfl
  · intro h
    rw [show deserialize_transform nat_parse ["v1"] =
      .error { message := "Wrong version: v1" } from rfl] at h
    simp [WhereWasIParseError.expected_line] at h

/-- C7 (amended): every sequence of fewer than 15 lines fails to decode;
the failure carries the fixed missing-line message provided the first line
(when present) is exactly `v0` and every line at a numeric position parses
as a float — otherwise the version or numeric-parse error is reported
instead; the failure point may occur before any numeric field is read. -/
theorem short_input_fails {F : Type} (fparse : String → Except String F)
    (ls : List String) (h : ls.length < 15) :
    (∀ t, deserialize_transform fparse ls ≠ .ok t) ∧
    ((∀ s, ls.head? = some s → s = "v0") →
     (∀ s, ls[3]? = some s → ∃ x, fparse s = .ok x) →
     (∀ s, ls[4]? = some s → ∃ x, fparse s = .ok x) →
     (∀ s, ls[5]? = some s → ∃ x, fparse s = .ok x) →
     (∀ s, ls[8]? = some s → ∃ x, fparse s = .ok x) →
     (∀ s, ls[9]? = some s → ∃ x, fparse s = .ok x) →
     (∀ s, ls[10]? = some s → ∃ x, fparse s = .ok x) →
     (∀ s, ls[11]? = some s → ∃ x, fparse s = .ok x) →
     (∀ s, ls[14]? = some s → ∃ x, fparse s = .ok x) →
     deserialize_transform fparse ls =
       .error WhereWasIParseError.expected_line) :=
  ⟨fun t => deserialize_short_not_ok fparse ls (by omega) t,
   fun hv h3 h4 h5 h8 h9 h10 h11 h14 =>
     deserialize_short_expected fparse ls (by omega) hv h3 h4 h5 h8 h9 h10 h11
       h14
       (fun s hs => absurd hs (by rw [List.getElem?_eq_none (by omega)]
         <;> exact fun hh => Option.noConfusion hh))
       (fun s hs => absurd hs (by rw [List.getElem?_eq_none (by omega)]
         <;> exact fun hh => Option.noConfusion hh))⟩

/-- Witness for amended C7 on the two-line input `v0`, `x`. -/
theorem short_input_fails_witness :
    (∀ t, deserialize_transform nat_parse ["v0", "x"] ≠ .ok t) ∧
    deserialize_transform nat_parse ["v0", "x"] =
      .error WhereWasIParseError.expected_line :=
  ⟨(short_input_fails nat_parse ["v0", "x"] (by decide)).1,
   (short_input_fails nat_parse ["v0", "x"] (by decide)).2
     (fun s hs => (Option.some.inj hs).symm)
     (fun s hs => Option.noConfusion hs) (fun s hs => Option.noConfusion hs)
     (fun s hs => Option.noConfusion hs) (fun s hs => Option.noConfusion hs)
     (fun s hs => Option.noConfusion hs) (fun s hs => Option.noConfusion hs)
     (fun s hs => Option.noConfusion hs) (fun s hs => Option.noConfusion hs)⟩

/-- C8: a successful decode requires at least 17 input lines — 1 version
line, the discarded pairs at positions 2-3, 7-8, 13-14, and 10 numeric
lines — so a valid input must supply at least 17 lines, not 15. -/
theorem successful_decode_needs_seventeen {F : Type}
    (fparse : String → Except String F) (ls : List String) (t : Transform F)
    (hok : deserialize_transform fparse ls = .ok t) : 17 ≤ ls.length :=
  deserialize_ok_length fparse ls t hok

/-- Witness for C8: a 17-line input that decodes successfully. -/
theorem successful_decode_needs_seventeen_witness :
    17 ≤ (["v0", "", "translation:", "1", "2", "3", "", "rotation:",
           "4", "5", "6", "7", "", "scale:", "8", "9", "10"] :
          List String).length :=
  successful_decode_needs_seventeen nat_parse _
    { translation := { x := 1, y := 2, z := 3 },
      rotation := Quat.from_vec4 { x := 4, y := 5, z := 6, w := 7 },
      scale := { x := 8, y := 9, z := 10 } } rfl

/-- C9: the decoder never checks for end-of-input after the last scale
component: whenever the 17 lines it consumes are valid, any further lines
are silently ignored and decoding succeeds with the same result. -/
theorem trailing_lines_ignored {F : Type} (fparse : String → Except String F)
    (b1 b2 b3 b4 b5 b6 : String)
    (n1 n2 n3 n4 n5 n6 n7 n8 n9 n10 : String)
    (x1 x2 x3 x4 x5 x6 x7 x8 x9 x10 : F) (suffix : List String)
    (h1 : fparse n1 = .ok x1) (h2 : fparse n2 = .ok x2)
    (h3 : fparse n3 = .ok x3) (h4 : fparse n4 = .ok x4)
    (h5 : fparse n5 = .ok x5) (h6 : fparse n6 = .ok x6)
    (h7 : fparse n7 = .ok x7) (h8 : fparse n8 = .ok x8)
    (h9 : fparse n9 = .ok x9) (h10 : fparse n10 = .ok x10) :
    deserialize_transform fparse
      ("v0" :: b1 :: b2 :: n1 :: n2 :: n3 :: b3 :: b4 :: n4 :: n5 :: n6 ::
       n7 :: b5 :: b6 :: n8 :: n9 :: n10 :: suffix) =
      .ok { translation := { x := x1, y := x2, z := x3 },
            rotation := Quat.from_vec4 { x := x4, y := x5, z := x6, w := x7 },
            scale := { x := x8, y := x9, z := x10 } } :=
  deserialize_complete fparse b1 b2 b3 b4 b5 b6 n1 n2 n3 n4 n5 n6 n7 n8 n9 n10
    x1 x2 x3 x4 x5 x6 x7 x8 x9 x10 suffix h1 h2 h3 h4 h5 h6 h7 h8 h9 h10

/-- Witness for C9: two extra lines after a valid 17-line prefix are
ignored. -/
theorem trailing_lines_ignored_witness :
    deserialize_transform nat_parse
      ["v0", "", "translation:", "1", "2", "3", "", "rotation:", "4", "5",
       "6", "7", "", "scale:", "8", "9", "10", "extra", "lines"] =
      .ok { translation := { x := 1, y := 2, z := 3 },
            rotation := Quat.from_vec4 { x := 4, y := 5, z := 6, w := 7 },
            scale := { x := 8, y := 9, z := 10 } } :=
  trailing_lines_ignored nat_parse "" "translation:" "" "rotation:" "" "scale:"
    "1" "2" "3" "4" "5" "6" "7" "8" "9" "10" 1 2 3 4 5 6 7 8 9 10
    ["extra", "lines"] rfl rfl rfl rfl rfl rfl rfl rfl rfl rfl

/-- C10: the decoder imposes no finiteness requirement on numeric fields:
whatever value the float parser returns for a token — in Rust, `inf`,
`-inf` or `NaN` (in any casing the parser accepts) parse successfully to
non-finite values — is stored verbatim in the resulting transform, so a
transform with non-finite components is returned without any error. -/
theorem parser_value_passed_through {F : Type}
    (fparse : String → Except String F)
    (b1 b2 b3 b4 b5 b6 tok : String) (v : F)
    (n2 n3 n4 n5 n6 n7 n8 n9 n10 : String)
    (x2 x3 x4 x5 x6 x7 x8 x9 x10 : F)
    (htok : fparse tok = .ok v)
    (h2 : fparse n2 = .ok x2) (h3 : fparse n3 = .ok x3)
    (h4 : fparse n4 = .ok x4) (h5 : fparse n5 = .ok x5)
    (h6 : fparse n6 = .ok x6) (h7 : fparse n7 = .ok x7)
    (h8 : fparse n8 = .ok x8) (h9 : fparse n9 = .ok x9)
    (h10 : fparse n10 = .ok x10) :
    deserialize_transform fparse
      ["v0", b1, b2, tok, n2, n3, b3, b4, n4, n5, n6, n7, b5, b6,
       n8, n9, n10] =
      .ok { translation := { x := v, y := x2, z := x3 },
            rotation := Quat.from_vec4 { x := x4, y := x5, z := x6, w := x7 },
            scale := { x := x8, y := x9, z := x10 } } :=
  deserialize_complete fparse b1 b2 b3 b4 b5 b6 tok n2 n3 n4 n5 n6 n7 n8 n9
    n10 v x2 x3 x4 x5 x6 x7 x8 x9 x10 [] htok h2 h3 h4 h5 h6 h7 h8 h9 h10

/-- Witness for C10: in the model where `inf` parses to the distinguished
non-finite value `none`, the decoder returns a transform containing it
without error. -/
theorem parser_value_passed_through_witness :
    deserialize_transform nonfinite_parse
      ["v0", "", "translation:", "inf", "2", "3", "", "rotation:", "4", "5",
       "6", "7", "", "scale:", "8", "9", "10"] =
      .ok { translation := { x := none, y := some 2, z := some 3 },
            rotation := Quat.from_vec4
              { x := some 4, y := some 5, z := some 6, w := some 7 },
            scale := { x := some 8, y := some 9, z := some 10 } } :=
  parser_value_passed_through nonfinite_parse "" "translation:" "" "rotation:"
    "" "scale:" "inf" none "2" "3" "4" "5" "6" "7" "8" "9" "10"
    (some 2) (some 3) (some 4) (some 5) (some 6) (some 7) (some 8) (some 9)
    (some 10) rfl rfl rfl rfl rfl rfl rfl rfl rfl rfl


end WhereWasI

